import Mathlib

/-!
Verification development for the UIDAI aggregation-and-ranking pipeline
(notebooks book1.py, book2.py, book3.py).

Modelling conventions:
* A dataframe is a `List` of row structures; row order is the dataframe's
  row order.
* Integer count columns are `ℤ` (the CSV count columns are integers and
  sums of integers stay exact in float64 for these magnitudes).
* Ratio columns are `Option ℚ`: `none` is the NaN marker produced by
  `x / y.replace(0, np.nan)`, `some v` a defined float value (the float
  arithmetic of the source is modelled exactly over `ℚ`).
* `groupby(...).sum()` is `groupSum`/`groupSum2`/`groupSum3`; pandas sorts
  group keys lexicographically while we keep first-occurrence order - no
  claim below depends on the key order, only on the multiset of rows.
* `merge(on=key)` against a grouped (hence unique-keyed) right table is a
  key lookup; `fillna(0)` after a merge is `Option.getD 0`.
* `sort_values(col, ascending=False)` in pandas (`nargsort`) reverses the
  non-NaN rows, argsorts them ascending (stably, for the frame sizes arising
  here), and reverses the indexer again, so a descending sort keeps rows
  with exactly equal keys in their original input order; NaN-keyed rows go
  last (`na_position="last"`).  `sortValuesDesc` models this as reverse,
  stable ascending `insertionSort`, reverse again, then the NaN rows.
* `Series.quantile(q)` is `quantilePandas`: NaN entries are skipped
  (`skipna`), then linear interpolation at position `q * (n - 1)` over the
  ascending sorted defined values.
-/

/-- One enrolment record: `state, district, pincode, age_0_5, age_5_17,
age_18_greater` (the `date` column is dropped immediately by the source). -/
structure EnrolRec where
  state : String
  district : String
  pincode : String
  age_0_5 : ℤ
  age_5_17 : ℤ
  age_18_greater : ℤ
deriving DecidableEq

/-- One demographic-update record: `state, district, pincode, demo_age_5_17,
demo_age_17_`. -/
structure DemoRec where
  state : String
  district : String
  pincode : String
  demo_age_5_17 : ℤ
  demo_age_17_ : ℤ
deriving DecidableEq

/-- One biometric-update record: `state, district, pincode, bio_age_5_17,
bio_age_17_`. -/
structure BioRec where
  state : String
  district : String
  pincode : String
  bio_age_5_17 : ℤ
  bio_age_17_ : ℤ
deriving DecidableEq

/-- `pd.concat(partitions, ignore_index=True)`: the unified table is the
concatenation of the partition tables. -/
def pd_concat (ps : List (List α)) : List α := ps.flatten

/-- book1: `enrol = pd.concat([enrol1, enrol2, enrol3], ignore_index=True)`. -/
def enrol_table (e1 e2 e3 : List EnrolRec) : List EnrolRec := pd_concat [e1, e2, e3]

/-- book1/book3: `demo = pd.concat([demo1, ..., demo5], ignore_index=True)`. -/
def demo_table (d1 d2 d3 d4 d5 : List DemoRec) : List DemoRec := pd_concat [d1, d2, d3, d4, d5]

/-- book1/book3: `bio = pd.concat([bio1, ..., bio4], ignore_index=True)`. -/
def bio_table (b1 b2 b3 b4 : List BioRec) : List BioRec := pd_concat [b1, b2, b3, b4]

/-- book1: `enrol["total_enrolments"] = age_0_5 + age_5_17 + age_18_greater`. -/
def EnrolRec.total_enrolments (r : EnrolRec) : ℤ := r.age_0_5 + r.age_5_17 + r.age_18_greater

/-- book1: `demo["demo_activity"] = demo_age_5_17 + demo_age_17_`. -/
def DemoRec.demo_activity (r : DemoRec) : ℤ := r.demo_age_5_17 + r.demo_age_17_

/-- book1: `bio["bio_activity"] = bio_age_5_17 + bio_age_17_`. -/
def BioRec.bio_activity (r : BioRec) : ℤ := r.bio_age_5_17 + r.bio_age_17_

/-- District-grain GeoUnit key `(state, district)`. -/
abbrev DistKey := String × String

/-- Pincode-grain GeoUnit key `(state, district, pincode)`. -/
abbrev PinKey := String × String × String

def EnrolRec.dkey (r : EnrolRec) : DistKey := (r.state, r.district)

def DemoRec.dkey (r : DemoRec) : DistKey := (r.state, r.district)

def BioRec.dkey (r : BioRec) : DistKey := (r.state, r.district)

def EnrolRec.pkey (r : EnrolRec) : PinKey := (r.state, r.district, r.pincode)

def DemoRec.pkey (r : DemoRec) : PinKey := (r.state, r.district, r.pincode)

def BioRec.pkey (r : BioRec) : PinKey := (r.state, r.district, r.pincode)

/-- `df.groupby(key, as_index=False)[col].sum()`: one output row per distinct
key (first-occurrence order), carrying the sum of `val` over the rows of that
group. -/
def groupSum [DecidableEq κ] (key : α → κ) (val : α → ℤ) (rows : List α) : List (κ × ℤ) :=
  ((rows.map key).dedup).map fun k =>
    (k, ((rows.filter fun r => decide (key r = k)).map val).sum)

/-- `df.groupby(key, as_index=False)[[c1, c2]].sum()`: two summed columns. -/
def groupSum2 [DecidableEq κ] (key : α → κ) (v1 v2 : α → ℤ) (rows : List α) :
    List (κ × ℤ × ℤ) :=
  ((rows.map key).dedup).map fun k =>
    (k, ((rows.filter fun r => decide (key r = k)).map v1).sum,
        ((rows.filter fun r => decide (key r = k)).map v2).sum)

/-- `df.groupby(key)[[c1, c2, c3]].sum()`: three summed columns. -/
def groupSum3 [DecidableEq κ] (key : α → κ) (v1 v2 v3 : α → ℤ) (rows : List α) :
    List (κ × ℤ × ℤ × ℤ) :=
  ((rows.map key).dedup).map fun k =>
    (k, ((rows.filter fun r => decide (key r = k)).map v1).sum,
        ((rows.filter fun r => decide (key r = k)).map v2).sum,
        ((rows.filter fun r => decide (key r = k)).map v3).sum)

/-- Key lookup in a single-value aggregate table (the `merge` of a left row
against a unique-keyed right table). -/
def lookupZ [DecidableEq κ] (t : List (κ × ℤ)) (k : κ) : Option ℤ :=
  (t.find? fun p => decide (p.1 = k)).map Prod.snd

/-- Key lookup in a two-value aggregate table. -/
def lookupZZ [DecidableEq κ] (t : List (κ × ℤ × ℤ)) (k : κ) : Option (ℤ × ℤ) :=
  (t.find? fun p => decide (p.1 = k)).map Prod.snd

/-- book1: `enrol_dist = enrol.groupby(["state", "district"])["total_enrolments"].sum()`. -/
def enrol_dist (enrol : List EnrolRec) : List (DistKey × ℤ) :=
  groupSum EnrolRec.dkey EnrolRec.total_enrolments enrol

/-- book1: `demo_dist = demo.groupby(["state", "district"])["demo_activity"].sum()`. -/
def demo_dist (demo : List DemoRec) : List (DistKey × ℤ) :=
  groupSum DemoRec.dkey DemoRec.demo_activity demo

/-- book1: `bio_dist = bio.groupby(["state", "district"])["bio_activity"].sum()`. -/
def bio_dist (bio : List BioRec) : List (DistKey × ℤ) :=
  groupSum BioRec.dkey BioRec.bio_activity bio

/-- A row of book1's `district_df` and of book2's `region_df` (same columns:
`state, district, total_enrolments, demo_activity, bio_activity`). -/
structure DistrictRow where
  state : String
  district : String
  total_enrolments : ℤ
  demo_activity : ℤ
  bio_activity : ℤ
deriving DecidableEq

/-- book1 lines 134-140:
`district_df = enrol_dist.merge(demo_dist, on=key, how="left")
                         .merge(bio_dist, on=key, how="left")` followed by
`district_df.fillna(0, inplace=True)`.  The right tables are groupby outputs
with unique keys, so each left merge is a key lookup; `how="left"` keeps
exactly the keys of `enrol_dist`. -/
def district_df (enrol : List EnrolRec) (demo : List DemoRec) (bio : List BioRec) :
    List DistrictRow :=
  (enrol_dist enrol).map fun p =>
    { state := p.1.1, district := p.1.2, total_enrolments := p.2,
      demo_activity := (lookupZ (demo_dist demo) p.1).getD 0,
      bio_activity := (lookupZ (bio_dist bio) p.1).getD 0 }

/-- book1: `district_df["total_activity"] = total_enrolments + demo_activity + bio_activity`
(book2 line 37 computes the same column on `region_df`). -/
def DistrictRow.total_activity (r : DistrictRow) : ℤ :=
  r.total_enrolments + r.demo_activity + r.bio_activity

/-- `a / b.replace(0, np.nan)`: NaN (modelled `none`) when the denominator is
zero, the exact quotient otherwise. -/
def safeDiv (a b : ℚ) : Option ℚ := if b = 0 then none else some (a / b)

/-- Float addition of two possibly-NaN columns: NaN propagates. -/
def addOpt : Option ℚ → Option ℚ → Option ℚ
  | some a, some b => some (a + b)
  | _, _ => none

/-- book1 lines 154-157:
`district_df["activity_per_enrolment"] = total_activity / total_enrolments.replace(0, np.nan)`. -/
def DistrictRow.activity_per_enrolment (r : DistrictRow) : Option ℚ :=
  safeDiv (r.total_activity : ℚ) (r.total_enrolments : ℚ)

/-- `Series.quantile(q)` with `q = qn / qd`: NaN entries are skipped, the
defined values are sorted ascending, and the result is the linear
interpolation at position `q * (n - 1)` (`numpy` style).  The index
arithmetic `i = ⌊q * (n - 1)⌋` and the fractional part are computed exactly
over `ℕ`.  Returns NaN (`none`) when no entry is defined. -/
def quantilePandas (qn qd : ℕ) (xs : List (Option ℚ)) : Option ℚ :=
  let s := List.insertionSort (fun a b : ℚ => a ≤ b) (xs.filterMap id)
  match s with
  | [] => none
  | v :: vs =>
    let m := vs.length
    let num := qn * m
    let i := num / qd
    let frac : ℚ := ((num % qd : ℕ) : ℚ) / (qd : ℚ)
    let lo := (v :: vs).getD i 0
    let hi := (v :: vs).getD (min (i + 1) m) 0
    some (lo + frac * (hi - lo))

/-- The ascending argsort key order used by `sort_values`: comparison of the
metric values (only ever applied to rows with a defined metric). -/
def rankLE (metric : α → Option ℚ) (a b : α) : Prop :=
  (metric a).getD 0 ≤ (metric b).getD 0

instance (metric : α → Option ℚ) : DecidableRel (rankLE metric) :=
  fun a b => inferInstanceAs (Decidable ((metric a).getD 0 ≤ (metric b).getD 0))

/-- `df.sort_values(col, ascending=False)`: pandas reverses the non-NaN rows,
argsorts them ascending (stably, for the small frames arising here), and
reverses the resulting order again — the double reversal keeps rows with
exactly equal keys in their input order — then appends the NaN-keyed rows
(`na_position="last"`). -/
def sortValuesDesc (metric : α → Option ℚ) (rows : List α) : List α :=
  (List.insertionSort (rankLE metric)
      ((rows.filter fun r => (metric r).isSome).reverse)).reverse
    ++ rows.filter fun r => !(metric r).isSome

/-- Pandas comparison `x >= t` where `t` may be NaN: false on NaN. -/
def cmpGeThr (a : ℚ) (t : Option ℚ) : Bool :=
  match t with
  | none => false
  | some v => decide (v ≤ a)

/-- Pandas comparison `x >= t` where both sides may be NaN: false on NaN. -/
def cmpGeOpt (a t : Option ℚ) : Bool :=
  match a, t with
  | some x, some v => decide (v ≤ x)
  | _, _ => false

/-- book1 lines 163-167:
`threshold = district_df["total_activity"].quantile(0.90)` and
`hotspots = district_df[total_activity >= threshold].sort_values("total_activity", ascending=False)`. -/
def hotspots (enrol : List EnrolRec) (demo : List DemoRec) (bio : List BioRec) :
    List DistrictRow :=
  let df := district_df enrol demo bio
  let thr := quantilePandas 9 10 (df.map fun r => some ((r.total_activity : ℚ)))
  sortValuesDesc (fun r => some ((r.total_activity : ℚ)))
    (df.filter fun r => cmpGeThr (r.total_activity : ℚ) thr)

/-- book1 lines 231-235: `top10_districts = district_df.sort_values("total_activity",
ascending=False).head(10)[["state", "district"]]`. -/
def top10_districts (df : List DistrictRow) : List DistKey :=
  ((sortValuesDesc (fun r => some ((r.total_activity : ℚ))) df).take 10).map
    fun r => (r.state, r.district)

/-- book1 `filter_top_districts`: an inner merge against the (unique-keyed)
top-district list keeps, in left order, the rows whose key is in the list. -/
def filter_top_enrol (rows : List EnrolRec) (tops : List DistKey) : List EnrolRec :=
  rows.filter fun r => decide (r.dkey ∈ tops)

def filter_top_demo (rows : List DemoRec) (tops : List DistKey) : List DemoRec :=
  rows.filter fun r => decide (r.dkey ∈ tops)

def filter_top_bio (rows : List BioRec) (tops : List DistKey) : List BioRec :=
  rows.filter fun r => decide (r.dkey ∈ tops)

/-- A row of book1's pincode-level `pincode_df`
(`state, district, pincode, total_enrolments, demo_activity, bio_activity`). -/
structure PinRow where
  state : String
  district : String
  pincode : String
  total_enrolments : ℤ
  demo_activity : ℤ
  bio_activity : ℤ
deriving DecidableEq

/-- book1 lines 273-295: pincode-grain aggregation of the top-district subset,
then `enrol_pin.merge(demo_pin, how="left").merge(bio_pin, how="left")` and
`fillna(0)`. -/
def pincode_df (enrol : List EnrolRec) (demo : List DemoRec) (bio : List BioRec) :
    List PinRow :=
  let tops := top10_districts (district_df enrol demo bio)
  let enrol_pin := groupSum EnrolRec.pkey EnrolRec.total_enrolments (filter_top_enrol enrol tops)
  let demo_pin := groupSum DemoRec.pkey DemoRec.demo_activity (filter_top_demo demo tops)
  let bio_pin := groupSum BioRec.pkey BioRec.bio_activity (filter_top_bio bio tops)
  enrol_pin.map fun p =>
    { state := p.1.1, district := p.1.2.1, pincode := p.1.2.2, total_enrolments := p.2,
      demo_activity := (lookupZ demo_pin p.1).getD 0,
      bio_activity := (lookupZ bio_pin p.1).getD 0 }

def PinRow.dkey (r : PinRow) : DistKey := (r.state, r.district)

/-- book2: Python `str.title()` - the first letter of each alphabetic run is
uppercased, the rest lowercased. -/
def titleCaseAux : Bool → List Char → List Char
  | _, [] => []
  | prevAlpha, c :: cs =>
    if c.isAlpha then
      (if prevAlpha then c.toLower else c.toUpper) :: titleCaseAux true cs
    else
      c :: titleCaseAux false cs

def titleCase (s : String) : String := String.mk (titleCaseAux false s.data)

/-- Python `str.strip()`: leading and trailing whitespace removed. -/
def stripStr (s : String) : String :=
  String.mk (((s.data.dropWhile Char.isWhitespace).reverse.dropWhile Char.isWhitespace).reverse)

/-- book2 lines 45-51: `region_df["state"].str.title().str.strip()` followed by
the explicit alias replacement map. -/
def fixState (s : String) : String :=
  let t := stripStr (titleCase s)
  if t = "Westbengal" then "West Bengal"
  else if t = "Daman And Diu" then "Daman & Diu"
  else if t = "Dadra And Nagar Haveli" then "Dadra & Nagar Haveli"
  else if t = "Andaman And Nicobar Islands" then "A & N Islands"
  else t

/-- book2 line 54: `region_df["district"].astype(str).str.replace("?", "-")` -
each `?` character becomes `-`; no case change. -/
def fixDistrict (s : String) : String :=
  String.mk (s.data.map fun c => if c = '?' then '-' else c)

/-- book2 line 32: `region_df = pincode_df.groupby(["state", "district"])
[["total_enrolments", "demo_activity", "bio_activity"]].sum().reset_index()`. -/
def region_grouped (p : List PinRow) : List DistrictRow :=
  (groupSum3 PinRow.dkey PinRow.total_enrolments PinRow.demo_activity PinRow.bio_activity
      p).map fun q =>
    { state := q.1.1, district := q.1.2, total_enrolments := q.2.1,
      demo_activity := q.2.2.1, bio_activity := q.2.2.2 }

/-- book2 lines 45-54: the state/district cleaning, applied row-wise to the
already-aggregated `region_df` (it renames keys but never re-groups rows). -/
def cleanRows (rows : List DistrictRow) : List DistrictRow :=
  rows.map fun r => { r with state := fixState r.state, district := fixDistrict r.district }

/-- book2 `region_df` just before the volume filter (grouped, derived,
cleaned). -/
def region_base (p : List PinRow) : List DistrictRow :=
  cleanRows (region_grouped p)

/-- book2 lines 59-60: `VOLUME_THRESHOLD = 1000` and
`region_df = region_df[region_df["total_activity"] > VOLUME_THRESHOLD]` -
note the strict `>`. -/
def region_df (p : List PinRow) : List DistrictRow :=
  (region_base p).filter fun r => decide (1000 < r.total_activity)

/-- book2: `region_df["total_updates"] = demo_activity + bio_activity`. -/
def DistrictRow.total_updates (r : DistrictRow) : ℤ := r.demo_activity + r.bio_activity

/-- book2 lines 75-78:
`update_to_enrolment_ratio = total_updates / total_enrolments.replace(0, np.nan)`. -/
def DistrictRow.update_to_enrolment_ratio (r : DistrictRow) : Option ℚ :=
  safeDiv (r.total_updates : ℚ) (r.total_enrolments : ℚ)

/-- book2 lines 192-194:
`bio_to_enrol_ratio = bio_activity / total_enrolments.replace(0, np.nan)`. -/
def DistrictRow.bio_to_enrol_ratio (r : DistrictRow) : Option ℚ :=
  safeDiv (r.bio_activity : ℚ) (r.total_enrolments : ℚ)

/-- book2 lines 196-198:
`demo_to_enrol_ratio = demo_activity / total_enrolments.replace(0, np.nan)`. -/
def DistrictRow.demo_to_enrol_ratio (r : DistrictRow) : Option ℚ :=
  safeDiv (r.demo_activity : ℚ) (r.total_enrolments : ℚ)

/-- book2 line 201: `total_maintenance_ratio = bio_to_enrol_ratio + demo_to_enrol_ratio`
(float addition, NaN propagates). -/
def DistrictRow.total_maintenance_ratio (r : DistrictRow) : Option ℚ :=
  addOpt r.bio_to_enrol_ratio r.demo_to_enrol_ratio

/-- book2 line 89: `ratio_threshold = region_df["update_to_enrolment_ratio"].quantile(0.90)`. -/
def ratio_threshold (p : List PinRow) : Option ℚ :=
  quantilePandas 9 10 ((region_df p).map DistrictRow.update_to_enrolment_ratio)

/-- book2 lines 91-93: `update_heavy = region_df[ratio >= ratio_threshold]
.sort_values("update_to_enrolment_ratio", ascending=False)`. -/
def update_heavy (p : List PinRow) : List DistrictRow :=
  sortValuesDesc DistrictRow.update_to_enrolment_ratio
    ((region_df p).filter fun r => cmpGeOpt r.update_to_enrolment_ratio (ratio_threshold p))

/-- book2 line 212: `maintenance_threshold = total_maintenance_ratio.quantile(0.90)`. -/
def maintenance_threshold (p : List PinRow) : Option ℚ :=
  quantilePandas 9 10 ((region_df p).map DistrictRow.total_maintenance_ratio)

/-- book2 lines 214-216: `maintenance_heavy = region_df[ratio >= threshold]
.sort_values("total_maintenance_ratio", ascending=False)`. -/
def maintenance_heavy (p : List PinRow) : List DistrictRow :=
  sortValuesDesc DistrictRow.total_maintenance_ratio
    ((region_df p).filter fun r => cmpGeOpt r.total_maintenance_ratio (maintenance_threshold p))

/-- book2 lines 238-242 `get_dominant_need`: `"Bio-Heavy (Scanners Needed)"`
when `bio_to_enrol_ratio > demo_to_enrol_ratio` (float `>`: false whenever a
side is NaN), else `"Demo-Heavy (Data Entry Needed)"`. -/
def optGtB : Option ℚ → Option ℚ → Bool
  | some a, some b => decide (b < a)
  | _, _ => false

def get_dominant_need (r : DistrictRow) : String :=
  if optGtB r.bio_to_enrol_ratio r.demo_to_enrol_ratio then "Bio-Heavy (Scanners Needed)"
  else "Demo-Heavy (Data Entry Needed)"

/-- book3 lines 91-101: `demo_pin = demo.groupby(["state", "district", "pincode"])
[["activity_5_17", "activity_17_plus"]].sum()` where `activity_5_17 = demo_age_5_17`
and `activity_17_plus = demo_age_17_`. -/
def demo_pin3 (demo : List DemoRec) : List (PinKey × ℤ × ℤ) :=
  groupSum2 DemoRec.pkey DemoRec.demo_age_5_17 DemoRec.demo_age_17_ demo

/-- book3 lines 97-101: the biometric analogue of `demo_pin`. -/
def bio_pin3 (bio : List BioRec) : List (PinKey × ℤ × ℤ) :=
  groupSum2 BioRec.pkey BioRec.bio_age_5_17 BioRec.bio_age_17_ bio

/-- A row of book3's `pincode_df` after the column combination
(`state, district, pincode, activity_5_17, activity_17_plus`). -/
structure AgePinRow where
  state : String
  district : String
  pincode : String
  activity_5_17 : ℤ
  activity_17_plus : ℤ
deriving DecidableEq

/-- book3 lines 111-132: `pincode_df = demo_pin.merge(bio_pin, how="outer",
suffixes=("_demo", "_bio"))`, `fillna(0)`, then
`activity_5_17 = activity_5_17_demo + activity_5_17_bio` (and the 17+ analogue).
The outer join carries every key of either aggregate exactly once; missing
sides are zero-filled.  Pandas sorts the union of keys, we keep demo keys
first then the bio-only keys - no claim depends on the key order. -/
def age_pincode_df (demo : List DemoRec) (bio : List BioRec) : List AgePinRow :=
  let d := demo_pin3 demo
  let b := bio_pin3 bio
  let dk := d.map Prod.fst
  let allKeys := dk ++ (b.map Prod.fst).filter fun k => decide (k ∉ dk)
  allKeys.map fun k =>
    let dp := (lookupZZ d k).getD (0, 0)
    let bp := (lookupZZ b k).getD (0, 0)
    { state := k.1, district := k.2.1, pincode := k.2.2,
      activity_5_17 := dp.1 + bp.1, activity_17_plus := dp.2 + bp.2 }

/-- book3 lines 142-145:
`total_update_activity = activity_5_17 + activity_17_plus`. -/
def AgePinRow.total_update_activity (r : AgePinRow) : ℤ :=
  r.activity_5_17 + r.activity_17_plus

/-- book3 lines 148-151: `age_17_plus_share = activity_17_plus /
total_update_activity.replace(0, np.nan)`. -/
def AgePinRow.age_17_plus_share (r : AgePinRow) : Option ℚ :=
  safeDiv (r.activity_17_plus : ℚ) (r.total_update_activity : ℚ)

/-- book3 lines 154-157: `age_5_17_share = activity_5_17 /
total_update_activity.replace(0, np.nan)`. -/
def AgePinRow.age_5_17_share (r : AgePinRow) : Option ℚ :=
  safeDiv (r.activity_5_17 : ℚ) (r.total_update_activity : ℚ)

/-- book3 lines 167-170: `VOLUME_THRESHOLD = 100` and
`filtered = pincode_df[total_update_activity >= VOLUME_THRESHOLD]` -
note the inclusive `>=`. -/
def filtered3 (demo : List DemoRec) (bio : List BioRec) : List AgePinRow :=
  (age_pincode_df demo bio).filter fun r => decide (100 ≤ r.total_update_activity)

/-- book3 line 187: `adult_threshold = filtered["age_17_plus_share"].quantile(0.90)`. -/
def adult_threshold (demo : List DemoRec) (bio : List BioRec) : Option ℚ :=
  quantilePandas 9 10 ((filtered3 demo bio).map AgePinRow.age_17_plus_share)

/-- book3 lines 189-192: `adult_heavy = filtered[share >= adult_threshold]
.sort_values("age_17_plus_share", ascending=False)`. -/
def adult_heavy (demo : List DemoRec) (bio : List BioRec) : List AgePinRow :=
  sortValuesDesc AgePinRow.age_17_plus_share
    ((filtered3 demo bio).filter fun r => cmpGeOpt r.age_17_plus_share (adult_threshold demo bio))

/-- book3 line 203: `child_threshold = filtered["age_5_17_share"].quantile(0.90)`. -/
def child_threshold (demo : List DemoRec) (bio : List BioRec) : Option ℚ :=
  quantilePandas 9 10 ((filtered3 demo bio).map AgePinRow.age_5_17_share)

/-- book3 lines 205-208: `child_heavy = filtered[share >= child_threshold]
.sort_values("age_5_17_share", ascending=False)`. -/
def child_heavy (demo : List DemoRec) (bio : List BioRec) : List AgePinRow :=
  sortValuesDesc AgePinRow.age_5_17_share
    ((filtered3 demo bio).filter fun r => cmpGeOpt r.age_5_17_share (child_threshold demo bio))

/-- The partition files feeding one full pipeline run (three enrolment, five
demographic, four biometric partitions, as in the notebooks). -/
structure PipelineInput where
  e1 : List EnrolRec
  e2 : List EnrolRec
  e3 : List EnrolRec
  d1 : List DemoRec
  d2 : List DemoRec
  d3 : List DemoRec
  d4 : List DemoRec
  d5 : List DemoRec
  b1 : List BioRec
  b2 : List BioRec
  b3 : List BioRec
  b4 : List BioRec

/-- The full batch pipeline: book1's hotspots, book2's update-heavy and
maintenance-heavy districts (fed from book1's `pincode_df` as in the
notebooks), and book3's adult-heavy and child-heavy pincodes. -/
def pipeline (inp : PipelineInput) :
    List DistrictRow × List DistrictRow × List DistrictRow × List AgePinRow × List AgePinRow :=
  let enrol := enrol_table inp.e1 inp.e2 inp.e3
  let demo := demo_table inp.d1 inp.d2 inp.d3 inp.d4 inp.d5
  let bio := bio_table inp.b1 inp.b2 inp.b3 inp.b4
  let pdf := pincode_df enrol demo bio
  (hotspots enrol demo bio, update_heavy pdf, maintenance_heavy pdf,
    adult_heavy demo bio, child_heavy demo bio)

/-! ### Helper lemmas -/

theorem filterMap_id_filter_isSome (xs : List (Option β)) :
    (xs.filter Option.isSome).filterMap id = xs.filterMap id := by
  induction xs with
  | nil => rfl
  | cons x xs ih => cases x <;> simp_all [List.filter_cons]

theorem countP_key_eq_one {κ : Type} [DecidableEq κ] {l : List κ} {k : κ}
    (hn : l.Nodup) (hm : k ∈ l) :
    l.countP (fun x => decide (x = k)) = 1 := by
  induction l with
  | nil => cases hm
  | cons a l ih =>
    rcases List.mem_cons.mp hm with h | h
    · subst h
      have h0 : l.countP (fun x => decide (x = k)) = 0 :=
        List.countP_eq_zero.mpr fun b hb => by
          simp only [decide_eq_true_eq]
          exact fun hba => (List.nodup_cons.mp hn).1 (hba ▸ hb)
      simp [List.countP_cons, h0]
    · have hak : ¬(a = k) := fun hak => (List.nodup_cons.mp hn).1 (hak ▸ h)
      simp [List.countP_cons, ih (List.nodup_cons.mp hn).2 h, hak]

theorem countP_key_eq_zero {κ : Type} [DecidableEq κ] {l : List κ} {k : κ}
    (hm : k ∉ l) : l.countP (fun x => decide (x = k)) = 0 :=
  List.countP_eq_zero.mpr fun b hb => by
    simp only [decide_eq_true_eq]
    exact fun hbk => hm (hbk ▸ hb)

theorem find?_self_of_mem {κ : Type} [DecidableEq κ] {l : List κ} {k : κ} (hm : k ∈ l) :
    l.find? (fun x => decide (x = k)) = some k := by
  induction l with
  | nil => cases hm
  | cons a l ih =>
    by_cases hak : a = k
    · subst hak; simp [List.find?_cons]
    · rcases List.mem_cons.mp hm with h | h
      · exact absurd h.symm hak
      · simp [List.find?_cons, hak, ih h]

theorem lookupZ_eq_none {κ : Type} [DecidableEq κ] {t : List (κ × ℤ)} {k : κ}
    (h : k ∉ t.map Prod.fst) : lookupZ t k = none := by
  unfold lookupZ
  rw [List.find?_eq_none.mpr]
  · rfl
  · intro p hp
    simp only [decide_eq_true_eq]
    exact fun hpk => h (hpk ▸ List.mem_map_of_mem Prod.fst hp)

theorem lookupZZ_eq_none {κ : Type} [DecidableEq κ] {t : List (κ × ℤ × ℤ)} {k : κ}
    (h : k ∉ t.map Prod.fst) : lookupZZ t k = none := by
  unfold lookupZZ
  rw [List.find?_eq_none.mpr]
  · rfl
  · intro p hp
    simp only [decide_eq_true_eq]
    exact fun hpk => h (hpk ▸ List.mem_map_of_mem Prod.fst hp)

theorem lookupZ_groupSum {κ α : Type} [DecidableEq κ] (key : α → κ) (val : α → ℤ)
    (rows : List α) {k : κ} (hm : k ∈ rows.map key) :
    lookupZ (groupSum key val rows) k
      = some (((rows.filter fun r => decide (key r = k)).map val).sum) := by
  have hk : k ∈ (rows.map key).dedup := List.mem_dedup.mpr hm
  unfold lookupZ groupSum
  rw [List.find?_map]
  rw [show ((fun p : κ × ℤ => decide (p.1 = k)) ∘ fun k0 =>
        (k0, ((rows.filter fun r => decide (key r = k0)).map val).sum))
      = fun x => decide (x = k) from rfl]
  rw [find?_self_of_mem hk]
  rfl

theorem lookupZZ_groupSum2 {κ α : Type} [DecidableEq κ] (key : α → κ) (v1 v2 : α → ℤ)
    (rows : List α) {k : κ} (hm : k ∈ rows.map key) :
    lookupZZ (groupSum2 key v1 v2 rows) k
      = some (((rows.filter fun r => decide (key r = k)).map v1).sum,
              ((rows.filter fun r => decide (key r = k)).map v2).sum) := by
  have hk : k ∈ (rows.map key).dedup := List.mem_dedup.mpr hm
  unfold lookupZZ groupSum2
  rw [List.find?_map]
  rw [show ((fun p : κ × ℤ × ℤ => decide (p.1 = k)) ∘ fun k0 =>
        (k0, ((rows.filter fun r => decide (key r = k0)).map v1).sum,
             ((rows.filter fun r => decide (key r = k0)).map v2).sum))
      = fun x => decide (x = k) from rfl]
  rw [find?_self_of_mem hk]
  rfl

theorem groupSum_keys {κ α : Type} [DecidableEq κ] (key : α → κ) (val : α → ℤ)
    (rows : List α) :
    (groupSum key val rows).map Prod.fst = (rows.map key).dedup := by
  unfold groupSum
  rw [List.map_map]
  exact List.map_id _

theorem groupSum2_keys {κ α : Type} [DecidableEq κ] (key : α → κ) (v1 v2 : α → ℤ)
    (rows : List α) :
    (groupSum2 key v1 v2 rows).map Prod.fst = (rows.map key).dedup := by
  unfold groupSum2
  rw [List.map_map]
  exact List.map_id _

theorem mem_groupSum2_spec {κ α : Type} [DecidableEq κ] {key : α → κ} {v1 v2 : α → ℤ}
    {rows : List α} {x : κ × ℤ × ℤ} (hx : x ∈ groupSum2 key v1 v2 rows) :
    x.2.1 = ((rows.filter fun r => decide (key r = x.1)).map v1).sum
    ∧ x.2.2 = ((rows.filter fun r => decide (key r = x.1)).map v2).sum := by
  unfold groupSum2 at hx
  rcases List.mem_map.mp hx with ⟨k, _, rfl⟩
  exact ⟨rfl, rfl⟩

theorem sum_map_add (f g : κ → ℤ) (l : List κ) :
    (l.map fun k => f k + g k).sum = (l.map f).sum + (l.map g).sum := by
  induction l with
  | nil => simp
  | cons a l ih => simp only [List.map_cons, List.sum_cons, ih]; ring

theorem sum_map_ite_single {κ : Type} [DecidableEq κ] {l : List κ} {k : κ}
    (hn : l.Nodup) (hm : k ∈ l) (c : ℤ) :
    (l.map fun x => if k = x then c else 0).sum = c := by
  induction l with
  | nil => cases hm
  | cons a l ih =>
    rcases List.mem_cons.mp hm with h | h
    · subst h
      have h0 : (l.map fun x => if k = x then c else 0).sum = 0 := by
        rw [List.sum_eq_zero]
        intro x hx
        rcases List.mem_map.mp hx with ⟨b, hb, rfl⟩
        have : ¬(k = b) := fun hkb => (List.nodup_cons.mp hn).1 (hkb ▸ hb)
        simp [this]
      simp [h0]
    · have hka : ¬(k = a) := fun hka => (List.nodup_cons.mp hn).1 (hka ▸ h)
      simp [hka, ih (List.nodup_cons.mp hn).2 h]

theorem sum_fiber {κ α : Type} [DecidableEq κ] (key : α → κ) (val : α → ℤ)
    (rows : List α) (keys : List κ) (hn : keys.Nodup)
    (hcov : ∀ r ∈ rows, key r ∈ keys) :
    (keys.map fun k => ((rows.filter fun r => decide (key r = k)).map val).sum).sum
      = (rows.map val).sum := by
  induction rows with
  | nil => simp
  | cons r rs ih =>
    have hr : key r ∈ keys := hcov r (List.mem_cons_self r rs)
    have hrs : ∀ x ∈ rs, key x ∈ keys := fun x hx => hcov x (List.mem_cons_of_mem r hx)
    have step : ∀ k ∈ keys,
        ((List.filter (fun x => decide (key x = k)) (r :: rs)).map val).sum
          = (fun k => (if key r = k then val r else 0)
              + ((List.filter (fun x => decide (key x = k)) rs).map val).sum) k := by
      intro k _
      by_cases h : key r = k
      · simp [List.filter_cons, h]
      · simp [List.filter_cons, h]
    rw [List.map_congr_left step, sum_map_add, sum_map_ite_single hn hr]
    simp [ih hrs]

theorem groupSum_conserves {κ α : Type} [DecidableEq κ] (key : α → κ) (val : α → ℤ)
    (rows : List α) :
    ((groupSum key val rows).map Prod.snd).sum = (rows.map val).sum := by
  unfold groupSum
  rw [List.map_map]
  exact sum_fiber key val rows (rows.map key).dedup (List.nodup_dedup _)
    fun r hr => List.mem_dedup.mpr (List.mem_map_of_mem key hr)

theorem groupSum2_conserves_fst {κ α : Type} [DecidableEq κ] (key : α → κ) (v1 v2 : α → ℤ)
    (rows : List α) :
    ((groupSum2 key v1 v2 rows).map fun x => x.2.1).sum = (rows.map v1).sum := by
  unfold groupSum2
  rw [List.map_map]
  exact sum_fiber key v1 rows (rows.map key).dedup (List.nodup_dedup _)
    fun r hr => List.mem_dedup.mpr (List.mem_map_of_mem key hr)

theorem groupSum2_conserves_snd {κ α : Type} [DecidableEq κ] (key : α → κ) (v1 v2 : α → ℤ)
    (rows : List α) :
    ((groupSum2 key v1 v2 rows).map fun x => x.2.2).sum = (rows.map v2).sum := by
  unfold groupSum2
  rw [List.map_map]
  exact sum_fiber key v2 rows (rows.map key).dedup (List.nodup_dedup _)
    fun r hr => List.mem_dedup.mpr (List.mem_map_of_mem key hr)

/-! ### Claim theorems -/

/-- C7: aggregation conserves volume: for each family and each count column,
the column sum of the grouped table equals the column sum of the unified raw
table, at district grain (book1) and at pincode grain (book3); in particular
two enrolment rows in one GeoUnit with bracket counts (10, 5, 85) and
(0, 0, 0) aggregate to `total_enrolments = 100`. -/
theorem aggregation_conservation :
    (∀ e : List EnrolRec,
        ((enrol_dist e).map Prod.snd).sum = (e.map EnrolRec.total_enrolments).sum)
    ∧ (∀ d : List DemoRec,
        ((demo_dist d).map Prod.snd).sum = (d.map DemoRec.demo_activity).sum)
    ∧ (∀ b : List BioRec,
        ((bio_dist b).map Prod.snd).sum = (b.map BioRec.bio_activity).sum)
    ∧ (∀ d : List DemoRec,
        ((demo_pin3 d).map fun x => x.2.1).sum = (d.map DemoRec.demo_age_5_17).sum
        ∧ ((demo_pin3 d).map fun x => x.2.2).sum = (d.map DemoRec.demo_age_17_).sum)
    ∧ (∀ b : List BioRec,
        ((bio_pin3 b).map fun x => x.2.1).sum = (b.map BioRec.bio_age_5_17).sum
        ∧ ((bio_pin3 b).map fun x => x.2.2).sum = (b.map BioRec.bio_age_17_).sum)
    ∧ enrol_dist [⟨"S", "A", "P1", 10, 5, 85⟩, ⟨"S", "A", "P2", 0, 0, 0⟩]
        = [(("S", "A"), 100)] :=
  ⟨fun _ => groupSum_conserves _ _ _, fun _ => groupSum_conserves _ _ _,
   fun _ => groupSum_conserves _ _ _,
   fun _ => ⟨groupSum2_conserves_fst _ _ _ _, groupSum2_conserves_snd _ _ _ _⟩,
   fun _ => ⟨groupSum2_conserves_fst _ _ _ _, groupSum2_conserves_snd _ _ _ _⟩,
   by decide⟩

/-- C8: the unified table is the concatenation of the partition tables: its
length is the sum of the partition lengths, no row is duplicated or dropped
(per-row counts add), each partition survives in order (sublist), partition
order is preserved (head partition comes first), and the three family tables
equal the concatenations of their partition lists. -/
theorem concatenation_completeness :
    (∀ ps : List (List EnrolRec), (pd_concat ps).length = (ps.map List.length).sum)
    ∧ (∀ (ps : List (List EnrolRec)) (x : EnrolRec),
        (pd_concat ps).count x = (ps.map (List.count x)).sum)
    ∧ (∀ (ps : List (List EnrolRec)) (p : List EnrolRec), p ∈ ps → p.Sublist (pd_concat ps))
    ∧ (∀ (p : List EnrolRec) (rest : List (List EnrolRec)),
        pd_concat (p :: rest) = p ++ pd_concat rest)
    ∧ (∀ e1 e2 e3, enrol_table e1 e2 e3 = e1 ++ e2 ++ e3)
    ∧ (∀ d1 d2 d3 d4 d5, demo_table d1 d2 d3 d4 d5 = d1 ++ d2 ++ d3 ++ d4 ++ d5)
    ∧ (∀ b1 b2 b3 b4, bio_table b1 b2 b3 b4 = b1 ++ b2 ++ b3 ++ b4) :=
  ⟨fun ps => List.length_flatten ps, fun ps x => List.count_flatten x ps,
   fun _ p hp => List.sublist_flatten_of_mem hp, fun _ _ => rfl,
   fun e1 e2 e3 => by simp [enrol_table, pd_concat, List.append_assoc],
   fun d1 d2 d3 d4 d5 => by simp [demo_table, pd_concat, List.append_assoc],
   fun b1 b2 b3 b4 => by simp [bio_table, pd_concat, List.append_assoc]⟩

/-- Witness for the concatenation claim: a concrete partition survives as a
sublist of the concrete concatenation. -/
theorem concatenation_completeness_witness :
    ([⟨"S", "D", "P", 1, 2, 3⟩] : List EnrolRec).Sublist
      (pd_concat [[⟨"S", "D", "P", 1, 2, 3⟩], [⟨"S", "D", "P", 4, 5, 6⟩]]) :=
  concatenation_completeness.2.2.1 _ _ (by decide)

/-- C9: the pipeline is deterministic: equal input partitions produce equal
output tables, including row order, for all five ranked outputs. -/
theorem pipeline_deterministic :
    ∀ i1 i2 : PipelineInput, i1 = i2 → pipeline i1 = pipeline i2 := by
  intro i1 i2 h
  rw [h]

/-- Witness for pipeline determinism at a concrete input. -/
theorem pipeline_deterministic_witness :
    pipeline ⟨[], [], [], [], [], [], [], [], [], [], [], []⟩
      = pipeline ⟨[], [], [], [], [], [], [], [], [], [], [], []⟩ :=
  pipeline_deterministic _ _ rfl

/-- C6: `get_dominant_need` yields the bio-heavy label exactly when the bio
ratio is a defined value strictly greater than the defined demo ratio (float
`>`: false whenever a side is NaN), and the demo-heavy label otherwise; in
particular exactly equal ratios give the demo-heavy label. -/
theorem dominant_need_tiebreak :
    ∀ r : DistrictRow,
      (get_dominant_need r = "Bio-Heavy (Scanners Needed)"
        ↔ ∃ x y, r.bio_to_enrol_ratio = some x ∧ r.demo_to_enrol_ratio = some y ∧ y < x)
      ∧ (r.bio_to_enrol_ratio = r.demo_to_enrol_ratio
          → get_dominant_need r = "Demo-Heavy (Data Entry Needed)") := by
  intro r
  have hstr : ("Demo-Heavy (Data Entry Needed)" : String) ≠ "Bio-Heavy (Scanners Needed)" := by
    decide
  have hself : ∀ o : Option ℚ, optGtB o o = false := by
    intro o
    cases o with
    | none => rfl
    | some x => simp [optGtB]
  constructor
  · cases hb : r.bio_to_enrol_ratio with
    | none => simp [get_dominant_need, optGtB, hb, hstr]
    | some x =>
      cases hd : r.demo_to_enrol_ratio with
      | none => simp [get_dominant_need, optGtB, hb, hd, hstr]
      | some y =>
        by_cases hxy : y < x
        · simp [get_dominant_need, optGtB, hb, hd, hxy]
        · simp [get_dominant_need, optGtB, hb, hd, hxy, hstr]
  · intro h
    simp [get_dominant_need, h, hself]

/-- Witness for the dominant-need tie-break at a concrete row with exactly
equal bio and demo ratios. -/
theorem dominant_need_tiebreak_witness :
    get_dominant_need ⟨"S", "D", 10, 5, 5⟩ = "Demo-Heavy (Data Entry Needed)" :=
  (dominant_need_tiebreak ⟨"S", "D", 10, 5, 5⟩).2 rfl

/-- C2: zero-denominator safety: every derived ratio whose denominator is
zero is the NaN marker `none` (never 0, never infinity, never an exception),
and `quantilePandas` computes percentile thresholds over the defined entries
only, so NaN rows are excluded from every percentile population. -/
theorem zero_denominator_safety :
    (∀ r : DistrictRow, r.total_enrolments = 0 →
        r.activity_per_enrolment = none
        ∧ r.update_to_enrolment_ratio = none
        ∧ r.bio_to_enrol_ratio = none
        ∧ r.demo_to_enrol_ratio = none
        ∧ r.total_maintenance_ratio = none)
    ∧ (∀ r : AgePinRow, r.total_update_activity = 0 →
        r.age_17_plus_share = none ∧ r.age_5_17_share = none)
    ∧ (∀ (qn qd : ℕ) (xs : List (Option ℚ)),
        quantilePandas qn qd xs = quantilePandas qn qd (xs.filter Option.isSome)) := by
  refine ⟨fun r h => ?_, fun r h => ?_, fun qn qd xs => ?_⟩
  · simp [DistrictRow.activity_per_enrolment, DistrictRow.update_to_enrolment_ratio,
      DistrictRow.bio_to_enrol_ratio, DistrictRow.demo_to_enrol_ratio,
      DistrictRow.total_maintenance_ratio, addOpt, safeDiv, h]
  · simp [AgePinRow.age_17_plus_share, AgePinRow.age_5_17_share, safeDiv, h]
  · unfold quantilePandas
    rw [filterMap_id_filter_isSome]

/-- Witness for zero-denominator safety at concrete rows with zero
denominators. -/
theorem zero_denominator_safety_witness :
    DistrictRow.update_to_enrolment_ratio ⟨"S", "D", 0, 30, 20⟩ = none
    ∧ AgePinRow.age_17_plus_share ⟨"S", "D", "P", 0, 0⟩ = none :=
  ⟨(zero_denominator_safety.1 ⟨"S", "D", 0, 30, 20⟩ rfl).2.1,
   (zero_denominator_safety.2.1 ⟨"S", "D", "P", 0, 0⟩ rfl).1⟩

/-- C4 (amended): the volume filters are hard cutoffs with distinct
per-grain thresholds (1000 at district grain, 100 at pincode grain), but the
district-grain filter is strict: a district row survives iff its total
activity strictly exceeds 1000 — a row at exactly 1000 is dropped — while a
pincode row survives iff its total update activity is at least 100. -/
theorem volume_filter_amended :
    (∀ (p : List PinRow) (r : DistrictRow),
        r ∈ region_df p ↔ r ∈ region_base p ∧ 1000 < r.total_activity)
    ∧ (∀ (d : List DemoRec) (b : List BioRec) (r : AgePinRow),
        r ∈ filtered3 d b ↔ r ∈ age_pincode_df d b ∧ 100 ≤ r.total_update_activity) := by
  constructor
  · intro p r
    simp [region_df, List.mem_filter]
  · intro d b r
    simp [filtered3, List.mem_filter]

/-- C4 counterexample: a district-grain row whose total activity is exactly
the threshold 1000 is present before the volume filter but dropped by it,
although the claim requires rows at or above the threshold to be retained. -/
theorem volume_filter_counterexample :
    DistrictRow.total_activity ⟨"S", "D", 600, 300, 100⟩ = 1000
    ∧ region_base [⟨"S", "D", "P", 600, 300, 100⟩] = [⟨"S", "D", 600, 300, 100⟩]
    ∧ region_df [⟨"S", "D", "P", 600, 300, 100⟩] = [] :=
  ⟨by decide, by decide, by decide⟩

/-- C1 (amended): book3's outer-joined pincode table contains exactly one row
for every GeoUnit present in either family's aggregate, and for a GeoUnit the
demographic family never saw the combined columns carry the biometric sums
alone (the demographic contribution is zero); book1's joined tables are left
joins on the enrolment aggregate: every GeoUnit of the enrolment aggregate
appears exactly once, with zero (not null) demo/bio columns where those
families had no records, but every GeoUnit absent from the enrolment
aggregate is dropped, even when it has demographic or biometric records. -/
theorem join_completeness_amended :
    (∀ (e : List EnrolRec) (d : List DemoRec) (b : List BioRec) (k : DistKey),
        (k ∈ e.map EnrolRec.dkey →
          (district_df e d b).countP (fun r => decide ((r.state, r.district) = k)) = 1)
        ∧ (k ∉ e.map EnrolRec.dkey →
          (district_df e d b).countP (fun r => decide ((r.state, r.district) = k)) = 0))
    ∧ (∀ (e : List EnrolRec) (d : List DemoRec) (b : List BioRec),
        ∀ r ∈ district_df e d b,
          ((r.state, r.district) ∉ d.map DemoRec.dkey → r.demo_activity = 0)
          ∧ ((r.state, r.district) ∉ b.map BioRec.dkey → r.bio_activity = 0))
    ∧ (∀ (d : List DemoRec) (b : List BioRec) (k : PinKey),
        (k ∈ d.map DemoRec.pkey ∨ k ∈ b.map BioRec.pkey) →
          (age_pincode_df d b).countP
            (fun r => decide ((r.state, r.district, r.pincode) = k)) = 1)
    ∧ (∀ (d : List DemoRec) (b : List BioRec),
        ∀ r ∈ age_pincode_df d b,
          (r.state, r.district, r.pincode) ∉ d.map DemoRec.pkey →
            r.activity_5_17
              = ((b.filter fun x => decide (x.pkey = (r.state, r.district, r.pincode))).map
                  BioRec.bio_age_5_17).sum
            ∧ r.activity_17_plus
              = ((b.filter fun x => decide (x.pkey = (r.state, r.district, r.pincode))).map
                  BioRec.bio_age_17_).sum) := by
  refine ⟨fun e d b k => ⟨fun hm => ?_, fun hm => ?_⟩, fun e d b r hr => ?_,
    fun d b k hk => ?_, fun d b r hr hnd => ?_⟩
  · have h1 : (district_df e d b).countP (fun r => decide ((r.state, r.district) = k))
        = (e.map EnrolRec.dkey).dedup.countP (fun x => decide (x = k)) := by
      unfold district_df enrol_dist groupSum
      rw [List.countP_map, List.countP_map]
      rfl
    rw [h1]
    exact countP_key_eq_one (List.nodup_dedup _) (List.mem_dedup.mpr hm)
  · have h1 : (district_df e d b).countP (fun r => decide ((r.state, r.district) = k))
        = (e.map EnrolRec.dkey).dedup.countP (fun x => decide (x = k)) := by
      unfold district_df enrol_dist groupSum
      rw [List.countP_map, List.countP_map]
      rfl
    rw [h1]
    exact countP_key_eq_zero (fun h => hm (List.mem_dedup.mp h))
  · unfold district_df at hr
    rcases List.mem_map.mp hr with ⟨p, _, rfl⟩
    constructor
    · intro hnd
      have : lookupZ (demo_dist d) p.1 = none := by
        apply lookupZ_eq_none
        rw [demo_dist, groupSum_keys]
        exact fun h => hnd (List.mem_dedup.mp h)
      simp [this]
    · intro hnb
      have : lookupZ (bio_dist b) p.1 = none := by
        apply lookupZ_eq_none
        rw [bio_dist, groupSum_keys]
        exact fun h => hnb (List.mem_dedup.mp h)
      simp [this]
  · have hdk : (demo_pin3 d).map Prod.fst = (d.map DemoRec.pkey).dedup := by
      rw [demo_pin3, groupSum2_keys]
    have h1 : (age_pincode_df d b).countP
          (fun r => decide ((r.state, r.district, r.pincode) = k))
        = (((demo_pin3 d).map Prod.fst)
            ++ ((bio_pin3 b).map Prod.fst).filter
                (fun k0 => decide (k0 ∉ (demo_pin3 d).map Prod.fst))).countP
            (fun x => decide (x = k)) := by
      unfold age_pincode_df
      rw [List.countP_map]
      rfl
    rw [h1]
    have hnodup : (((demo_pin3 d).map Prod.fst)
        ++ ((bio_pin3 b).map Prod.fst).filter
            (fun k0 => decide (k0 ∉ (demo_pin3 d).map Prod.fst))).Nodup := by
      rw [List.nodup_append]
      refine ⟨?_, ?_, ?_⟩
      · rw [hdk]; exact List.nodup_dedup _
      · exact List.Nodup.filter _ (by rw [bio_pin3, groupSum2_keys]; exact List.nodup_dedup _)
      · intro a ha hb
        have := (List.mem_filter.mp hb).2
        simp only [decide_eq_true_eq] at this
        exact this ha
    have hmem : k ∈ (((demo_pin3 d).map Prod.fst)
        ++ ((bio_pin3 b).map Prod.fst).filter
            (fun k0 => decide (k0 ∉ (demo_pin3 d).map Prod.fst))) := by
      by_cases hkd : k ∈ (demo_pin3 d).map Prod.fst
      · exact List.mem_append_left _ hkd
      · rcases hk with hk | hk
        · exact absurd (by rw [hdk]; exact List.mem_dedup.mpr hk) hkd
        · refine List.mem_append_right _ (List.mem_filter.mpr ⟨?_, by simpa using hkd⟩)
          rw [bio_pin3, groupSum2_keys]
          exact List.mem_dedup.mpr hk
    exact countP_key_eq_one hnodup hmem
  · unfold age_pincode_df at hr
    rcases List.mem_map.mp hr with ⟨k, _, rfl⟩
    have hnd2 : k ∉ d.map DemoRec.pkey := hnd
    have hdnone : lookupZZ (demo_pin3 d) k = none := by
      apply lookupZZ_eq_none
      rw [demo_pin3, groupSum2_keys]
      exact fun h => hnd2 (List.mem_dedup.mp h)
    suffices h : ((lookupZZ (demo_pin3 d) k).getD (0, 0)).1
          + ((lookupZZ (bio_pin3 b) k).getD (0, 0)).1
        = ((b.filter fun x => decide (x.pkey = k)).map BioRec.bio_age_5_17).sum
        ∧ ((lookupZZ (demo_pin3 d) k).getD (0, 0)).2
          + ((lookupZZ (bio_pin3 b) k).getD (0, 0)).2
        = ((b.filter fun x => decide (x.pkey = k)).map BioRec.bio_age_17_).sum from h
    by_cases hkb : k ∈ b.map BioRec.pkey
    · have hb : lookupZZ (bio_pin3 b) k
          = some (((b.filter fun r => decide (BioRec.pkey r = k)).map BioRec.bio_age_5_17).sum,
                  ((b.filter fun r => decide (BioRec.pkey r = k)).map BioRec.bio_age_17_).sum) :=
        lookupZZ_groupSum2 BioRec.pkey BioRec.bio_age_5_17 BioRec.bio_age_17_ b hkb
      rw [hdnone, hb]
      constructor <;> simp
    · have hbnone : lookupZZ (bio_pin3 b) k = none := by
        apply lookupZZ_eq_none
        rw [bio_pin3, groupSum2_keys]
        exact fun h => hkb (List.mem_dedup.mp h)
      have hfil : b.filter (fun x => decide (x.pkey = k)) = [] := by
        rw [List.filter_eq_nil_iff]
        intro x hx
        simp only [decide_eq_true_eq]
        exact fun hxk => hkb (hxk ▸ List.mem_map_of_mem BioRec.pkey hx)
      rw [hdnone, hbnone, hfil]
      constructor <;> simp

/-- C1 counterexample: a GeoUnit with no enrolment records but a nonzero
demographic-update record is absent from book1's joined `district_df`
(the `how="left"` merge drops it), contradicting the claimed join
completeness and its `total_enrolments = 0` example. -/
theorem join_completeness_counterexample :
    district_df [] [⟨"S", "D", "P", 30, 20⟩] [] = []
    ∧ ("S", "D") ∈ ([⟨"S", "D", "P", 30, 20⟩] : List DemoRec).map DemoRec.dkey
    ∧ DemoRec.demo_activity ⟨"S", "D", "P", 30, 20⟩ = 50 :=
  ⟨rfl, by decide, by decide⟩

theorem lookupZZ_getD_comp_nonneg {κ α : Type} [DecidableEq κ] {key : α → κ}
    {v1 v2 : α → ℤ} {rows : List α}
    (h1 : ∀ x ∈ rows, 0 ≤ v1 x) (h2 : ∀ x ∈ rows, 0 ≤ v2 x) (k : κ) :
    0 ≤ ((lookupZZ (groupSum2 key v1 v2 rows) k).getD (0, 0)).1
    ∧ 0 ≤ ((lookupZZ (groupSum2 key v1 v2 rows) k).getD (0, 0)).2 := by
  cases hf : lookupZZ (groupSum2 key v1 v2 rows) k with
  | none => simp
  | some p =>
    unfold lookupZZ at hf
    rcases Option.map_eq_some'.mp hf with ⟨q, hq, rfl⟩
    have hqmem := List.mem_of_find?_eq_some hq
    have hspec := mem_groupSum2_spec hqmem
    constructor
    · simp only [Option.getD_some]
      rw [hspec.1]
      apply List.sum_nonneg
      intro x hx
      rcases List.mem_map.mp hx with ⟨r, hr, rfl⟩
      exact h1 r (List.mem_of_mem_filter hr)
    · simp only [Option.getD_some]
      rw [hspec.2]
      apply List.sum_nonneg
      intro x hx
      rcases List.mem_map.mp hx with ⟨r, hr, rfl⟩
      exact h2 r (List.mem_of_mem_filter hr)

/-- C10: the age shares partition the update activity: for every row of
book3's age-bracket pincode table (over non-negative input counts, as the
data model requires), a row with nonzero total update activity has both
shares defined, each in [0, 1], summing to exactly 1; a row with zero total
update activity has both shares equal to the NaN marker. -/
theorem age_share_partition :
    ∀ (d : List DemoRec) (b : List BioRec),
      (∀ x ∈ d, 0 ≤ x.demo_age_5_17 ∧ 0 ≤ x.demo_age_17_) →
      (∀ x ∈ b, 0 ≤ x.bio_age_5_17 ∧ 0 ≤ x.bio_age_17_) →
      ∀ r ∈ age_pincode_df d b,
        (r.total_update_activity ≠ 0 →
          ∃ s17 s5, r.age_17_plus_share = some s17 ∧ r.age_5_17_share = some s5
            ∧ s17 + s5 = 1 ∧ 0 ≤ s17 ∧ s17 ≤ 1 ∧ 0 ≤ s5 ∧ s5 ≤ 1)
        ∧ (r.total_update_activity = 0 →
          r.age_17_plus_share = none ∧ r.age_5_17_share = none) := by
  intro d b hd hb r hr
  have hnn : 0 ≤ r.activity_5_17 ∧ 0 ≤ r.activity_17_plus := by
    unfold age_pincode_df at hr
    rcases List.mem_map.mp hr with ⟨k, _, rfl⟩
    have hdn := @lookupZZ_getD_comp_nonneg PinKey DemoRec _ DemoRec.pkey _ _ d
      (fun x hx => (hd x hx).1) (fun x hx => (hd x hx).2) k
    have hbn := @lookupZZ_getD_comp_nonneg PinKey BioRec _ BioRec.pkey _ _ b
      (fun x hx => (hb x hx).1) (fun x hx => (hb x hx).2) k
    exact ⟨add_nonneg hdn.1 hbn.1, add_nonneg hdn.2 hbn.2⟩
  have htz : r.total_update_activity = r.activity_5_17 + r.activity_17_plus := rfl
  constructor
  · intro ht
    have hq0 : ((r.total_update_activity : ℤ) : ℚ) ≠ 0 := by exact_mod_cast ht
    have hpos : (0 : ℤ) < r.total_update_activity :=
      lt_of_le_of_ne (htz ▸ add_nonneg hnn.1 hnn.2) (Ne.symm ht)
    have hqpos : (0 : ℚ) < ((r.total_update_activity : ℤ) : ℚ) := by exact_mod_cast hpos
    refine ⟨(r.activity_17_plus : ℚ) / ((r.total_update_activity : ℤ) : ℚ),
            (r.activity_5_17 : ℚ) / ((r.total_update_activity : ℤ) : ℚ),
            ?_, ?_, ?_, ?_, ?_, ?_, ?_⟩
    · unfold AgePinRow.age_17_plus_share safeDiv
      rw [if_neg hq0]
    · unfold AgePinRow.age_5_17_share safeDiv
      rw [if_neg hq0]
    · rw [div_add_div_same, div_eq_one_iff_eq hq0]
      rw [htz]
      push_cast
      ring
    · exact div_nonneg (by exact_mod_cast hnn.2) (le_of_lt hqpos)
    · rw [div_le_one hqpos]
      have : r.activity_17_plus ≤ r.total_update_activity :=
        htz ▸ le_add_of_nonneg_left hnn.1
      exact_mod_cast this
    · exact div_nonneg (by exact_mod_cast hnn.1) (le_of_lt hqpos)
    · rw [div_le_one hqpos]
      have : r.activity_5_17 ≤ r.total_update_activity :=
        htz ▸ le_add_of_nonneg_right hnn.2
      exact_mod_cast this
  · intro ht
    have hq0 : ((r.total_update_activity : ℤ) : ℚ) = 0 := by exact_mod_cast ht
    constructor
    · unfold AgePinRow.age_17_plus_share safeDiv
      rw [if_pos hq0]
    · unfold AgePinRow.age_5_17_share safeDiv
      rw [if_pos hq0]

/-- Witness for the age-share partition at a concrete table with one row of
activity (20, 30). -/
theorem age_share_partition_witness :
    ∃ s17 s5,
      AgePinRow.age_17_plus_share ⟨"S", "D", "P", 20, 30⟩ = some s17
      ∧ AgePinRow.age_5_17_share ⟨"S", "D", "P", 20, 30⟩ = some s5
      ∧ s17 + s5 = 1 ∧ 0 ≤ s17 ∧ s17 ≤ 1 ∧ 0 ≤ s5 ∧ s5 ≤ 1 :=
  (age_share_partition [⟨"S", "D", "P", 20, 30⟩] [] (by decide) (by decide)
    ⟨"S", "D", "P", 20, 30⟩ (by decide)).1 (by decide)

/-- C3 (amended): district normalization replaces each corrupted `?` glyph by
`-` but preserves letter case ("Medchal?malkajgiri" becomes
"Medchal-malkajgiri", not "Medchal-Malkajgiri"), and the cleaning runs on the
already-aggregated region table, after the groupby/joins, renaming keys
row-wise without re-grouping: it never merges rows, so two differently
corrupted encodings of one district remain two separate rows (with equal key
text when the repair maps them to the same string). -/
theorem normalization_amended :
    fixDistrict "Medchal?malkajgiri" = "Medchal-malkajgiri"
    ∧ (∀ rows : List DistrictRow, (cleanRows rows).length = rows.length)
    ∧ (∀ p : List PinRow, region_base p = cleanRows (region_grouped p)) :=
  ⟨by decide, fun rows => by simp [cleanRows], fun p => rfl⟩

/-- C3 counterexample: repairing "Medchal?malkajgiri" yields
"Medchal-malkajgiri", not the claimed key "Medchal-Malkajgiri"; and because
the cleaning runs after the aggregation joins, the encodings
"Medchal?malkajgiri" and "Medchal-malkajgiri" of the same district do not
merge into a single row: book2's region table keeps both rows (with
identical key text). -/
theorem normalization_counterexample :
    fixDistrict "Medchal?malkajgiri" ≠ "Medchal-Malkajgiri"
    ∧ region_df
        [⟨"Telangana", "Medchal?malkajgiri", "500001", 2000, 0, 0⟩,
         ⟨"Telangana", "Medchal-malkajgiri", "500002", 3000, 0, 0⟩]
      = [⟨"Telangana", "Medchal-malkajgiri", 2000, 0, 0⟩,
         ⟨"Telangana", "Medchal-malkajgiri", 3000, 0, 0⟩] :=
  ⟨by decide, by decide⟩

/-- Witness for the amended join-completeness theorem at concrete tables: a
GeoUnit present in the enrolment aggregate appears exactly once in
`district_df`, and a GeoUnit present only in the biometric aggregate appears
exactly once in book3's outer-joined pincode table. -/
theorem join_completeness_amended_witness :
    (district_df [⟨"S", "D", "P", 1, 2, 3⟩] [] []).countP
        (fun r => decide ((r.state, r.district) = ("S", "D"))) = 1
    ∧ (age_pincode_df [] [⟨"S", "D", "P", 4, 5⟩]).countP
        (fun r => decide ((r.state, r.district, r.pincode) = ("S", "D", "P"))) = 1 :=
  ⟨(join_completeness_amended.1 [⟨"S", "D", "P", 1, 2, 3⟩] [] [] ("S", "D")).1 (by decide),
   join_completeness_amended.2.2.1 [] [⟨"S", "D", "P", 4, 5⟩] ("S", "D", "P")
     (Or.inr (by decide))⟩
